import Mathlib

/-!
Shallow embedding of the historical-data pipeline of `src/pages/History.tsx`
(SolarTrackerWebApp).  Numbers handled by JavaScript are modelled as exact
rationals (`ℚ`), instants in milliseconds as `ℤ`.  The browser built-in
`new Date(string).getTime()` used on timestamp strings is kept abstract as a
parameter `dateParseMs : String → ℤ`; likewise `Date.toISOString` used by the
CSV exporter is a parameter `toIso : ℤ → String`.  `JSON`-level absence
(`undefined`) is modelled with `Option`.
-/

/-- Rounding of a rational to the nearest integer, halves away from zero.
This is the idealised semantics of JavaScript `toFixed` on the scale used by
`value.toFixed(2)` in the source. -/
def roundHalfAway (q : ℚ) : ℤ :=
  if q < 0 then -⌊-q + 1/2⌋ else ⌊q + 1/2⌋

/-- Rounding to two decimal places, the model of `parseFloat(x.toFixed(2))`
from lines 167-226 of `History.tsx`. -/
def round2 (q : ℚ) : ℚ :=
  (roundHalfAway (q * 100) : ℚ) / 100

/-- Two-digit zero padding for the fractional part of a fixed-point print. -/
def pad2 (n : ℕ) : String :=
  if n < 10 then "0" ++ toString n else toString n

/-- Model of JavaScript `x.toFixed(2)` as a string: round to two decimals and
print with exactly two fractional digits. -/
def formatFixed2 (q : ℚ) : String :=
  let n : ℤ := roundHalfAway (q * 100)
  let sign : String := if n < 0 then "-" else ""
  sign ++ toString (n.natAbs / 100) ++ "." ++ pad2 (n.natAbs % 100)

/-- A calendar date as entered through the date pickers (`YYYY-MM-DD`). -/
structure CalDate where
  year : ℤ
  month : ℤ
  day : ℤ
deriving DecidableEq, Repr

/-- Days since the Unix epoch of a civil date (proleptic Gregorian); the
standard days-from-civil computation, modelling what
`new Date("YYYY-MM-DD")` produces (UTC midnight of that date). -/
def daysFromCivil (date : CalDate) : ℤ :=
  let y := if date.month ≤ 2 then date.year - 1 else date.year
  let era := Int.fdiv y 400
  let yoe := y - era * 400
  let mp := if 2 < date.month then date.month - 3 else date.month + 9
  let doy := Int.fdiv (153 * mp + 2) 5 + date.day - 1
  let doe := yoe * 365 + Int.fdiv yoe 4 - Int.fdiv yoe 100 + doy
  era * 146097 + doe - 719468

/-- Milliseconds since the Unix epoch of the UTC midnight of a calendar date:
the instant `new Date("YYYY-MM-DD").getTime()` denotes. -/
def msOfDate (d : CalDate) : ℤ :=
  daysFromCivil d * 86400000

/-- The fixed historical floor, `new Date("2024-11-15")` (line 10). -/
def EARLIEST_DATE : ℤ :=
  msOfDate ⟨2024, 11, 15⟩

/-- One raw sensor record as returned by the history API (`LiveData`,
lines 34-49): a timestamp string, twelve numeric scalars and an optional
image URL. -/
structure LiveData where
  timestamp : String
  temperature_c : ℚ
  humidity : ℚ
  pressure : ℚ
  ambientweatherwindmaxspeed : ℚ
  wind_speed : ℚ
  wind_direction : ℚ
  ambientweathertemp : ℚ
  ambientweatherhumidity : ℚ
  ambientweatherrain : ℚ
  ambientweatheruv : ℚ
  ambientweatheruvi : ℚ
  ambientweatherlightlux : ℚ
  image_url : Option String
deriving DecidableEq, Repr

/-- One chart point (`DataPoint`, lines 13-17). -/
structure DataPoint where
  time : ℤ
  value : ℚ
  image_url : Option String
deriving DecidableEq, Repr

/-- The per-metric channels (`HistoricalData`, lines 19-32). -/
structure HistoricalData where
  temperature : List DataPoint
  humidity : List DataPoint
  pressure : List DataPoint
  windMaxSpeed : List DataPoint
  windSpeed : List DataPoint
  windDirection : List DataPoint
  ambientTemp : List DataPoint
  ambientHumidity : List DataPoint
  rain : List DataPoint
  uv : List DataPoint
  uvi : List DataPoint
  lightLux : List DataPoint
deriving DecidableEq, Repr

/-- JavaScript truthiness of an optional string: `undefined` and `""` are
falsy, everything else truthy. -/
def truthyStr : Option String → Bool
  | some s => s ≠ ""
  | none => false

/-- Model of `d.image_url || ""`: a missing URL is normalised to the empty
string (and `""` stays `""`). -/
def orEmptyStr : Option String → String
  | some s => s
  | none => ""

/-- Model of `d.timestamp.slice(0, -1)`: drop the final character of the
timestamp string, unconditionally (lines 168, 173, ...). -/
def sliceDropLast (s : String) : String :=
  String.mk s.data.dropLast

/-- The transformation of the fetched record list into the per-metric
channels (`transformedData`, lines 166-227).  Each of the twelve fields maps
the same response list; `dateParseMs` stands for
`(s : String) => new Date(s).getTime()`. -/
def transform (dateParseMs : String → ℤ) (data : List LiveData) : HistoricalData where
  temperature := data.map (fun d =>
    { time := dateParseMs (sliceDropLast d.timestamp)
      value := round2 d.temperature_c
      image_url := some (orEmptyStr d.image_url) })
  humidity := data.map (fun d =>
    { time := dateParseMs (sliceDropLast d.timestamp)
      value := round2 d.humidity
      image_url := some (orEmptyStr d.image_url) })
  pressure := data.map (fun d =>
    { time := dateParseMs (sliceDropLast d.timestamp)
      value := round2 d.pressure
      image_url := some (orEmptyStr d.image_url) })
  windMaxSpeed := data.map (fun d =>
    { time := dateParseMs (sliceDropLast d.timestamp)
      value := round2 d.ambientweatherwindmaxspeed
      image_url := some (orEmptyStr d.image_url) })
  windSpeed := data.map (fun d =>
    { time := dateParseMs (sliceDropLast d.timestamp)
      value := round2 d.wind_speed
      image_url := some (orEmptyStr d.image_url) })
  windDirection := data.map (fun d =>
    { time := dateParseMs (sliceDropLast d.timestamp)
      value := round2 d.wind_direction
      image_url := some (orEmptyStr d.image_url) })
  ambientTemp := data.map (fun d =>
    { time := dateParseMs (sliceDropLast d.timestamp)
      value := round2 d.ambientweathertemp
      image_url := some (orEmptyStr d.image_url) })
  ambientHumidity := data.map (fun d =>
    { time := dateParseMs (sliceDropLast d.timestamp)
      value := round2 d.ambientweatherhumidity
      image_url := some (orEmptyStr d.image_url) })
  rain := data.map (fun d =>
    { time := dateParseMs (sliceDropLast d.timestamp)
      value := round2 d.ambientweatherrain
      image_url := some (orEmptyStr d.image_url) })
  uv := data.map (fun d =>
    { time := dateParseMs (sliceDropLast d.timestamp)
      value := round2 d.ambientweatheruv
      image_url := some (orEmptyStr d.image_url) })
  uvi := data.map (fun d =>
    { time := dateParseMs (sliceDropLast d.timestamp)
      value := round2 d.ambientweatheruvi
      image_url := some (orEmptyStr d.image_url) })
  lightLux := data.map (fun d =>
    { time := dateParseMs (sliceDropLast d.timestamp)
      value := round2 d.ambientweatherlightlux
      image_url := some (orEmptyStr d.image_url) })

/-- The data series handed to the solar-irradiance chart (lines 403-406):
the lux channel with every value multiplied by 0.0079, no further rounding. -/
def solarIrradianceData (hd : HistoricalData) : List DataPoint :=
  hd.lightLux.map (fun item => { item with value := item.value * (79 / 10000 : ℚ) })

/-- Names for the twelve raw metrics, used to quantify statements over all
channels of a dataset. -/
inductive Metric
  | temperature | humidity | pressure | windMaxSpeed | windSpeed | windDirection
  | ambientTemp | ambientHumidity | rain | uv | uvi | lightLux
deriving DecidableEq, Repr

/-- The channel of a dataset belonging to a metric. -/
def channelOf : Metric → HistoricalData → List DataPoint
  | .temperature, hd => hd.temperature
  | .humidity, hd => hd.humidity
  | .pressure, hd => hd.pressure
  | .windMaxSpeed, hd => hd.windMaxSpeed
  | .windSpeed, hd => hd.windSpeed
  | .windDirection, hd => hd.windDirection
  | .ambientTemp, hd => hd.ambientTemp
  | .ambientHumidity, hd => hd.ambientHumidity
  | .rain, hd => hd.rain
  | .uv, hd => hd.uv
  | .uvi, hd => hd.uvi
  | .lightLux, hd => hd.lightLux

/-- The raw scalar of a record belonging to a metric. -/
def scalarOf : Metric → LiveData → ℚ
  | .temperature, d => d.temperature_c
  | .humidity, d => d.humidity
  | .pressure, d => d.pressure
  | .windMaxSpeed, d => d.ambientweatherwindmaxspeed
  | .windSpeed, d => d.wind_speed
  | .windDirection, d => d.wind_direction
  | .ambientTemp, d => d.ambientweathertemp
  | .ambientHumidity, d => d.ambientweatherhumidity
  | .rain, d => d.ambientweatherrain
  | .uv, d => d.ambientweatheruv
  | .uvi, d => d.ambientweatheruvi
  | .lightLux, d => d.ambientweatherlightlux

/-- Extraction of the timelapse image list (lines 232-235): keep the records
whose `image_url` is truthy, project the URL, and narrow away the
non-strings. -/
def extractImages (data : List LiveData) : List String :=
  ((data.filter (fun d => truthyStr d.image_url)).map (fun d => d.image_url)).filterMap
    (fun url => match url with
      | some s => if s = "" then none else some s
      | none => none)

/-- Result of the date-range validation performed at the top of
`handleSubmit` (lines 126-149). -/
inductive ValidationResult
  | ok (sameDay : Bool)
  | startTooEarly
  | endInFuture
  | startAfterEnd
deriving DecidableEq, Repr

/-- The validation sequence of `handleSubmit` (lines 126-149) in isolation:
parse both calendar dates to instants, compare against the floor, the current
instant and each other, in that order; on success report the same-day flag
(ISO date-string equality of the two parsed midnights, which for calendar
dates is equality of the dates). -/
def validate (today : ℤ) (startDate endDate : CalDate) : ValidationResult :=
  let start := msOfDate startDate
  let endMs := msOfDate endDate
  if start < EARLIEST_DATE then .startTooEarly
  else if today < endMs then .endInFuture
  else if endMs < start then .startAfterEnd
  else .ok (decide (startDate = endDate))

/-- Error message of line 137-139 (`EARLIEST_DATE.toDateString()` prints as
`Fri Nov 15 2024`). -/
def errStartTooEarly : String :=
  "Start date cannot be earlier than Fri Nov 15 2024"

/-- Error message of line 143. -/
def errEndInFuture : String :=
  "End date cannot be in the future"

/-- Error message of line 147. -/
def errStartAfterEnd : String :=
  "Start date must be before end date"

/-- Error message of line 161. -/
def errNoData : String :=
  "No data found for the selected date range."

/-- Error message of line 237. -/
def errFetchFailed : String :=
  "Failed to fetch historical data"

/-- Error message of line 244. -/
def errNoExport : String :=
  "No data available to export"

/-- Error message of line 113. -/
def errImageLoad : String :=
  "Failed to load the selected image."

/-- The React state of the `History` page that the claims are about:
`error`, `isSameDay`, `selectedImage`, `historicalData` and `imageUrls`
(lines 73-80). -/
structure AppState where
  error : String
  isSameDay : Bool
  selectedImage : Option String
  historicalData : Option HistoricalData
  imageUrls : List String
deriving DecidableEq, Repr

/-- Outcome of the awaited `axios.get` call: a record list on success, or a
thrown error (network/server failure). -/
inductive FetchResult
  | ok (data : List LiveData)
  | err
deriving DecidableEq, Repr

/-- One submission of the query form (`handleSubmit`, lines 120-240), as a
state transformer.  The fetch outcome is passed in as `fetch` since the
network is an external collaborator. -/
def handleSubmit (dateParseMs : String → ℤ) (today : ℤ)
    (startDate endDate : CalDate) (fetch : FetchResult) (s : AppState) : AppState :=
  let s0 : AppState := { s with error := "", historicalData := none, selectedImage := none }
  let start := msOfDate startDate
  let endMs := msOfDate endDate
  let sameDay := decide (startDate = endDate)
  let s1 : AppState := { s0 with isSameDay := sameDay }
  if start < EARLIEST_DATE then { s1 with error := errStartTooEarly }
  else if today < endMs then { s1 with error := errEndInFuture }
  else if endMs < start then { s1 with error := errStartAfterEnd }
  else match fetch with
    | .err => { s1 with error := errFetchFailed }
    | .ok data =>
      if data.length = 0 then { s1 with error := errNoData }
      else { s1 with
              historicalData := some (transform dateParseMs data)
              imageUrls := extractImages data }

/-- Outcome of the out-of-band image preload started by
`handleDataPointClick`. -/
inductive LoadResult
  | success
  | failure
deriving DecidableEq, Repr

/-- Clicking a chart point (`handleDataPointClick`, lines 103-118): with a
truthy `image_url` the preload's callback either displays the image
(`onload`) or surfaces the load error (`onerror`); otherwise the selected
image is cleared immediately. -/
def handleDataPointClick (load : String → LoadResult) (p : DataPoint)
    (s : AppState) : AppState :=
  if truthyStr p.image_url then
    match load (orEmptyStr p.image_url) with
    | .success => { s with selectedImage := p.image_url }
    | .failure => { s with error := errImageLoad }
  else
    { s with selectedImage := none }

/-- The CSV header row (lines 248-262). -/
def csvHeaders : List String :=
  ["Timestamp", "Temperature (°C)", "Humidity (%)", "Pressure (hPa)",
   "Wind Max Speed (km/h)", "Wind Speed (km/h)", "Wind Direction (°)",
   "Ambient Temperature (°C)", "Ambient Humidity (%)", "Rain (mm)",
   "UV Index", "UVI", "Light Lux (lx)"]

/-- One entry of the `dataPoints` array of `handleExport` (lines 263-277):
the reference channel is `temperature`, whose entry at the index is accessed
without an existence check, while every companion channel is accessed with
`?.` and may be absent. -/
structure ExportPoint where
  time : ℤ
  temperature : ℚ
  humidity : Option ℚ
  pressure : Option ℚ
  windMaxSpeed : Option ℚ
  windSpeed : Option ℚ
  windDirection : Option ℚ
  ambientTemp : Option ℚ
  ambientHumidity : Option ℚ
  rain : Option ℚ
  uv : Option ℚ
  uvi : Option ℚ
  lightLux : Option ℚ
deriving DecidableEq, Repr

/-- The `dataPoints` construction of `handleExport` (lines 263-277): map over
the temperature channel with its index. -/
def exportDataPoints (hd : HistoricalData) : List ExportPoint :=
  hd.temperature.enum.map (fun pr =>
    { time := pr.2.time
      temperature := pr.2.value
      humidity := (hd.humidity[pr.1]?).map DataPoint.value
      pressure := (hd.pressure[pr.1]?).map DataPoint.value
      windMaxSpeed := (hd.windMaxSpeed[pr.1]?).map DataPoint.value
      windSpeed := (hd.windSpeed[pr.1]?).map DataPoint.value
      windDirection := (hd.windDirection[pr.1]?).map DataPoint.value
      ambientTemp := (hd.ambientTemp[pr.1]?).map DataPoint.value
      ambientHumidity := (hd.ambientHumidity[pr.1]?).map DataPoint.value
      rain := (hd.rain[pr.1]?).map DataPoint.value
      uv := (hd.uv[pr.1]?).map DataPoint.value
      uvi := (hd.uvi[pr.1]?).map DataPoint.value
      lightLux := (hd.lightLux[pr.1]?).map DataPoint.value })

/-- The `rows` construction of `handleExport` (lines 279-293): a cell is
`none` when the JavaScript expression is `undefined` (the `?.` chain hit a
missing entry), otherwise the `toFixed(2)` string; the first cell is the
ISO-8601 instant string of the point's time. -/
def exportRows (toIso : ℤ → String) (hd : HistoricalData) : List (List (Option String)) :=
  (exportDataPoints hd).map (fun item =>
    [some (toIso item.time),
     some (formatFixed2 item.temperature),
     item.humidity.map formatFixed2,
     item.pressure.map formatFixed2,
     item.windMaxSpeed.map formatFixed2,
     item.windSpeed.map formatFixed2,
     item.windDirection.map formatFixed2,
     item.ambientTemp.map formatFixed2,
     item.ambientHumidity.map formatFixed2,
     item.rain.map formatFixed2,
     item.uv.map formatFixed2,
     item.uvi.map formatFixed2,
     item.lightLux.map formatFixed2])

/-- JavaScript `Array.prototype.join` renders `undefined` elements as the
empty string. -/
def joinCell : Option String → String
  | some s => s
  | none => ""

/-- The lines of the CSV document, before they are joined with `"\n"`
(lines 295-298): the joined header row followed by one joined row per data
point. -/
def csvLineList (toIso : ℤ → String) (hd : HistoricalData) : List String :=
  String.intercalate "," csvHeaders ::
    (exportRows toIso hd).map (fun row => String.intercalate "," (row.map joinCell))

/-- The full CSV document (`csvContent`, lines 295-298). -/
def csvContent (toIso : ℤ → String) (hd : HistoricalData) : String :=
  String.intercalate "\n" (csvLineList toIso hd)

/-- The export action (`handleExport`, lines 242-311): with no dataset held
(`historicalData` is `null`) the error is set and nothing is produced;
otherwise the CSV document is built and offered for download. -/
def handleExport (toIso : ℤ → String) (s : AppState) : AppState × Option String :=
  match s.historicalData with
  | none => ({ s with error := errNoExport }, none)
  | some hd => (s, some (csvContent toIso hd))

/-- Modelled from the spec: the timestamp normalisation the specification
describes — "stripping any trailing zone marker before parsing"; a timestamp
with no trailing zone marker would be left unchanged.  Stated for comparison
with the source's `sliceDropLast`, which the code applies instead. -/
def stripTrailingZoneMarker (s : String) : String :=
  if s.data.getLast? = some 'Z' then String.mk s.data.dropLast else s

/-- Every channel of a transformed dataset is the same map over the source
list, with only the scalar selector varying. -/
theorem channelOf_transform (m : Metric) (dateParseMs : String → ℤ)
    (data : List LiveData) :
    channelOf m (transform dateParseMs data) = data.map (fun d =>
      { time := dateParseMs (sliceDropLast d.timestamp)
        value := round2 (scalarOf m d)
        image_url := some (orEmptyStr d.image_url) }) := by
  cases m <;> rfl

/-- A sample raw record used to instantiate universally quantified theorems
on concrete data. -/
def sampleReading : LiveData where
  timestamp := "2024-11-20T10:00:00Z"
  temperature_c := 1
  humidity := 2
  pressure := 3
  ambientweatherwindmaxspeed := 4
  wind_speed := 5
  wind_direction := 6
  ambientweathertemp := 7
  ambientweatherhumidity := 8
  ambientweatherrain := 9
  ambientweatheruv := 10
  ambientweatheruvi := 11
  ambientweatherlightlux := 126582 / 1000
  image_url := none

/-- C1: every dataset produced by `transform` satisfies the alignment
invariant — each of the twelve metric channels has one point per reading
(equal length, reading order, the point's time being the parse of the
reading's sliced timestamp), and any two channels carry identical time
values at every index. -/
theorem transform_channel_alignment (dateParseMs : String → ℤ)
    (readings : List LiveData) (m₁ m₂ : Metric) :
    (channelOf m₁ (transform dateParseMs readings)).length = readings.length ∧
    ∀ i (h₁ : i < (channelOf m₁ (transform dateParseMs readings)).length)
      (hr : i < readings.length),
      ((channelOf m₁ (transform dateParseMs readings)).get ⟨i, h₁⟩).time =
        dateParseMs (sliceDropLast (readings.get ⟨i, hr⟩).timestamp) ∧
      ∀ (h₂ : i < (channelOf m₂ (transform dateParseMs readings)).length),
        ((channelOf m₁ (transform dateParseMs readings)).get ⟨i, h₁⟩).time =
          ((channelOf m₂ (transform dateParseMs readings)).get ⟨i, h₂⟩).time := by
  rw [channelOf_transform m₁, channelOf_transform m₂]
  refine ⟨List.length_map _ _, ?_⟩
  intro i h₁ hr
  simp [List.get_eq_getElem, List.getElem_map]

/-- Witness for C1 at a concrete one-record list: the temperature and
light-lux channels both have length one and share the time at index zero. -/
theorem transform_channel_alignment_witness :
    (channelOf Metric.temperature (transform (fun _ => 0) [sampleReading])).length = 1 ∧
    ((channelOf Metric.temperature (transform (fun _ => 0) [sampleReading])).get
        ⟨0, by decide⟩).time =
      ((channelOf Metric.lightLux (transform (fun _ => 0) [sampleReading])).get
        ⟨0, by decide⟩).time := by
  have h := transform_channel_alignment (fun _ => 0) [sampleReading]
    Metric.temperature Metric.lightLux
  exact ⟨h.1, ((h.2 0 (by decide) (by decide)).2 (by decide))⟩

/-- C4: validation is rejective and exclusive — for every (today, start, end)
triple the result is exactly one of the four outcomes, the "start too early"
check (`start < EARLIEST_DATE`) taking precedence over the "end in future"
check (`end > today`), which takes precedence over the "start after end"
check (`start > end`); in particular start 2024-11-01, end 2024-11-20 with
now 2024-11-25 is rejected as too early since `EARLIEST_DATE` is
2024-11-15. -/
theorem validate_exclusive_precedence (today : ℤ) (startDate endDate : CalDate) :
    (validate today startDate endDate = .startTooEarly ↔
      msOfDate startDate < EARLIEST_DATE) ∧
    (validate today startDate endDate = .endInFuture ↔
      ¬msOfDate startDate < EARLIEST_DATE ∧ today < msOfDate endDate) ∧
    (validate today startDate endDate = .startAfterEnd ↔
      ¬msOfDate startDate < EARLIEST_DATE ∧ ¬today < msOfDate endDate ∧
        msOfDate endDate < msOfDate startDate) ∧
    ((∃ b, validate today startDate endDate = .ok b) ↔
      ¬msOfDate startDate < EARLIEST_DATE ∧ ¬today < msOfDate endDate ∧
        ¬msOfDate endDate < msOfDate startDate) ∧
    validate (msOfDate ⟨2024, 11, 25⟩) ⟨2024, 11, 1⟩ ⟨2024, 11, 20⟩ =
      .startTooEarly := by
  refine ⟨?_, ?_, ?_, ?_, by decide⟩ <;>
    · unfold validate
      dsimp only
      split_ifs <;> simp_all

/-- A baseline page state: no error, no same-day flag, nothing selected, no
dataset, no timelapse images. -/
def blankState : AppState where
  error := ""
  isSameDay := false
  selectedImage := none
  historicalData := none
  imageUrls := []

/-- Counterexample to C5: a submission rejected as "start too early"
nevertheless overwrites the `isSameDay` flag (the flag is stored before the
validation checks run), here flipping it from `true` to `false`. -/
theorem sameDay_set_on_rejected_submission :
    (handleSubmit (fun _ => 0) (msOfDate ⟨2024, 11, 25⟩) ⟨2024, 11, 1⟩ ⟨2024, 11, 20⟩
        FetchResult.err { blankState with isSameDay := true }).error = errStartTooEarly ∧
    (handleSubmit (fun _ => 0) (msOfDate ⟨2024, 11, 25⟩) ⟨2024, 11, 1⟩ ⟨2024, 11, 20⟩
        FetchResult.err { blankState with isSameDay := true }).isSameDay = false := by
  decide

/-- C5 amended: every submission, rejected or not, recomputes and stores the
same-day flag of the submitted range (the flag is set before validation);
what does hold on failure is that no dataset is present — a submission that
ends in an error leaves `historicalData` empty. -/
theorem sameDay_always_recomputed (dateParseMs : String → ℤ) (today : ℤ)
    (startDate endDate : CalDate) (fetch : FetchResult) (s : AppState) :
    (handleSubmit dateParseMs today startDate endDate fetch s).isSameDay =
      decide (startDate = endDate) ∧
    ((handleSubmit dateParseMs today startDate endDate fetch s).error ≠ "" →
      (handleSubmit dateParseMs today startDate endDate fetch s).historicalData
        = none) := by
  cases fetch <;>
    · unfold handleSubmit
      dsimp only
      split_ifs <;> simp_all

/-- Witness for C5's amended theorem at a concrete rejected submission. -/
theorem sameDay_always_recomputed_witness :
    (handleSubmit (fun _ => 0) (msOfDate ⟨2024, 11, 25⟩) ⟨2024, 11, 1⟩ ⟨2024, 11, 20⟩
        FetchResult.err blankState).isSameDay =
      decide ((⟨2024, 11, 1⟩ : CalDate) = ⟨2024, 11, 20⟩) ∧
    (handleSubmit (fun _ => 0) (msOfDate ⟨2024, 11, 25⟩) ⟨2024, 11, 1⟩ ⟨2024, 11, 20⟩
        FetchResult.err blankState).historicalData = none := by
  have h := sameDay_always_recomputed (fun _ => 0) (msOfDate ⟨2024, 11, 25⟩)
    ⟨2024, 11, 1⟩ ⟨2024, 11, 20⟩ FetchResult.err blankState
  exact ⟨h.1, h.2 (by decide)⟩

/-- C10: a submission begins by clearing the error, the dataset and the
selected image, so after a submission that fails validation or whose fetch
throws, no dataset or selection is present — regardless of what the previous
state held — and a subsequent export is refused with "No data available to
export". -/
theorem submit_reset_and_export_refusal (dateParseMs : String → ℤ)
    (toIso : ℤ → String) (today : ℤ) (startDate endDate : CalDate)
    (fetch : FetchResult) (s : AppState)
    (h : (∀ b, validate today startDate endDate ≠ .ok b) ∨ fetch = .err) :
    (handleSubmit dateParseMs today startDate endDate fetch s).historicalData = none ∧
    (handleSubmit dateParseMs today startDate endDate fetch s).selectedImage = none ∧
    (handleExport toIso
        (handleSubmit dateParseMs today startDate endDate fetch s)).1.error =
      errNoExport ∧
    (handleExport toIso
        (handleSubmit dateParseMs today startDate endDate fetch s)).2 = none := by
  rcases h with hv | hf
  · have hv' := hv (decide (startDate = endDate))
    unfold validate at hv'
    dsimp only at hv'
    cases fetch <;>
      · unfold handleSubmit
        dsimp only
        split_ifs at hv' ⊢ <;> simp_all [handleExport]
  · subst hf
    unfold handleSubmit
    dsimp only
    split_ifs <;> simp [handleExport]

/-- Witness for C10 at a concrete too-early submission over a previously
successful state. -/
theorem submit_reset_and_export_refusal_witness :
    (handleSubmit (fun _ => 0) (msOfDate ⟨2024, 11, 25⟩) ⟨2024, 11, 1⟩ ⟨2024, 11, 20⟩
        (FetchResult.ok [sampleReading])
        { blankState with
            historicalData := some (transform (fun _ => 0) [sampleReading]) }).historicalData
      = none ∧
    (handleExport (fun _ => "")
        (handleSubmit (fun _ => 0) (msOfDate ⟨2024, 11, 25⟩) ⟨2024, 11, 1⟩
          ⟨2024, 11, 20⟩ (FetchResult.ok [sampleReading])
          { blankState with
              historicalData := some (transform (fun _ => 0) [sampleReading]) })).1.error
      = errNoExport := by
  have hval : validate (msOfDate ⟨2024, 11, 25⟩) ⟨2024, 11, 1⟩ ⟨2024, 11, 20⟩ =
      .startTooEarly := by decide
  have h := submit_reset_and_export_refusal (fun _ => 0) (fun _ => "")
    (msOfDate ⟨2024, 11, 25⟩) ⟨2024, 11, 1⟩ ⟨2024, 11, 20⟩
    (FetchResult.ok [sampleReading])
    { blankState with
        historicalData := some (transform (fun _ => 0) [sampleReading]) }
    (Or.inl (fun b hb => by rw [hval] at hb; exact ValidationResult.noConfusion hb))
  exact ⟨h.1, h.2.2.1⟩

/-- Counterexample to C7: `handleExport` only refuses when `historicalData`
is `null`; handed a present-but-empty dataset (the transform of an empty
reading list, all of whose channels are empty) it emits a header-only CSV
document instead of failing with the "no data available" error. -/
theorem export_empty_dataset_header_only :
    transform (fun _ => 0) [] =
      { temperature := [], humidity := [], pressure := [], windMaxSpeed := [],
        windSpeed := [], windDirection := [], ambientTemp := [],
        ambientHumidity := [], rain := [], uv := [], uvi := [], lightLux := [] } ∧
    (csvLineList (fun _ => "") (transform (fun _ => 0) [])).length = 1 ∧
    (handleExport (fun _ => "")
        { blankState with historicalData := some (transform (fun _ => 0) []) }).2 =
      some (String.intercalate "," csvHeaders) ∧
    (handleExport (fun _ => "")
        { blankState with historicalData := some (transform (fun _ => 0) []) }).1.error
      ≠ errNoExport := by
  refine ⟨rfl, rfl, ?_, ?_⟩
  · simp only [handleExport, csvContent, csvLineList, exportRows, exportDataPoints]
    rfl
  · simp [handleExport]
    decide

/-- C7 amended: the transform of an empty reading list has all channels
empty, but such a dataset never reaches the exporter: a submission whose
fetch returns an empty list is rejected with "No data found for the selected
date range." and leaves no dataset, so a subsequent export is refused with
"No data available to export" (the refusal comes from the absence of a
dataset, not from its emptiness). -/
theorem empty_readings_flow (dateParseMs : String → ℤ) (toIso : ℤ → String)
    (today : ℤ) (startDate endDate : CalDate) (s : AppState) (b : Bool)
    (h : validate today startDate endDate = .ok b) :
    (∀ m, channelOf m (transform dateParseMs []) = []) ∧
    (handleSubmit dateParseMs today startDate endDate (.ok []) s).error =
      errNoData ∧
    (handleSubmit dateParseMs today startDate endDate (.ok []) s).historicalData =
      none ∧
    (handleExport toIso
        (handleSubmit dateParseMs today startDate endDate (.ok []) s)).1.error =
      errNoExport ∧
    (handleExport toIso
        (handleSubmit dateParseMs today startDate endDate (.ok []) s)).2 = none := by
  unfold validate at h
  dsimp only at h
  refine ⟨fun m => by cases m <;> rfl, ?_⟩
  unfold handleSubmit
  dsimp only
  split_ifs at h ⊢ <;> simp_all [handleExport]

/-- Witness for C7's amended theorem at a concrete valid range whose fetch
returns no records. -/
theorem empty_readings_flow_witness :
    (handleSubmit (fun _ => 0) (msOfDate ⟨2024, 11, 25⟩) ⟨2024, 11, 20⟩
        ⟨2024, 11, 20⟩ (.ok []) blankState).error = errNoData ∧
    (handleExport (fun _ => "")
        (handleSubmit (fun _ => 0) (msOfDate ⟨2024, 11, 25⟩) ⟨2024, 11, 20⟩
          ⟨2024, 11, 20⟩ (.ok []) blankState)).1.error = errNoExport := by
  have h := empty_readings_flow (fun _ => 0) (fun _ => "") (msOfDate ⟨2024, 11, 25⟩)
    ⟨2024, 11, 20⟩ ⟨2024, 11, 20⟩ blankState true (by decide)
  exact ⟨h.2.1, h.2.2.2.1⟩

/-- A chart point carrying an image reference, used to exercise the selector
on concrete data. -/
def failingPoint : DataPoint where
  time := 0
  value := 0
  image_url := some "b.jpg"

/-- Counterexample to C9: when the image load fails the selector surfaces
the error message but leaves the previously displayed image in place — with
an image already displayed, the displayed state after the failure is that
same image, not `Cleared`. -/
theorem select_failure_preserves_displayed_image :
    (handleDataPointClick (fun _ => .failure) failingPoint
        { blankState with selectedImage := some "a.jpg" }).selectedImage =
      some "a.jpg" ∧
    (handleDataPointClick (fun _ => .failure) failingPoint
        { blankState with selectedImage := some "a.jpg" }).selectedImage ≠ none ∧
    (handleDataPointClick (fun _ => .failure) failingPoint
        { blankState with selectedImage := some "a.jpg" }).error = errImageLoad := by
  decide

/-- C9 amended: with no truthy image reference the selection is cleared
immediately, for every possible load behaviour (no load is consulted); with
a truthy reference and a failing load the error "Failed to load the selected
image." is surfaced and the displayed image is left unchanged — so it stays
`Cleared` only if it already was; a succeeding load displays the image. -/
theorem select_outcomes (load : String → LoadResult) (p : DataPoint)
    (s : AppState) :
    (truthyStr p.image_url = false →
      handleDataPointClick load p s = { s with selectedImage := none }) ∧
    (truthyStr p.image_url = true →
      load (orEmptyStr p.image_url) = .failure →
        (handleDataPointClick load p s).selectedImage = s.selectedImage ∧
        (handleDataPointClick load p s).error = errImageLoad) ∧
    (truthyStr p.image_url = true →
      load (orEmptyStr p.image_url) = .success →
        handleDataPointClick load p s = { s with selectedImage := p.image_url }) := by
  unfold handleDataPointClick
  refine ⟨fun h1 => by simp [h1], fun h1 h2 => by simp [h1, h2],
    fun h1 h2 => by simp [h1, h2]⟩

/-- Witness for C9's amended theorem: a point without an image reference is
cleared synchronously, and a failing load on the sample point surfaces the
error while leaving the selection unchanged. -/
theorem select_outcomes_witness :
    handleDataPointClick (fun _ => .failure) { time := 0, value := 0, image_url := none }
        blankState = { blankState with selectedImage := none } ∧
    (handleDataPointClick (fun _ => .failure) failingPoint blankState).selectedImage =
      blankState.selectedImage ∧
    (handleDataPointClick (fun _ => .failure) failingPoint blankState).error =
      errImageLoad := by
  refine ⟨(select_outcomes (fun _ => .failure)
      { time := 0, value := 0, image_url := none } blankState).1 (by decide), ?_⟩
  exact (select_outcomes (fun _ => .failure) failingPoint blankState).2.1
    (by decide) rfl

/-- Counterexample to C2: for a lux reading of 126.582 the lux channel holds
126.58, the claim predicts an irradiance value of
`round2 (126.58 * 0.0079) = 1.00`, but the chart's derived channel carries
the unrounded product 0.999982, which is not 1.00. -/
theorem irradiance_rounding_counterexample :
    (transform (fun _ => 0) [sampleReading]).lightLux.map DataPoint.value =
      [12658 / 100] ∧
    (solarIrradianceData (transform (fun _ => 0) [sampleReading])).map
        DataPoint.value = [999982 / 1000000] ∧
    round2 ((12658 / 100 : ℚ) * (79 / 10000)) = 1 ∧
    ((999982 : ℚ) / 1000000) ≠ 1 := by
  refine ⟨?_, ?_, ?_, by norm_num⟩
  · simp only [transform, List.map_cons, List.map_nil]
    norm_num [sampleReading, round2, roundHalfAway]
  · simp only [solarIrradianceData, transform, List.map_cons, List.map_nil]
    norm_num [sampleReading, round2, roundHalfAway]
  · norm_num [round2, roundHalfAway]

/-- C2 amended: the derived solar-irradiance channel multiplies each
already-2-decimal-rounded lux value by 0.0079, the conversion applied after
the rounding of lux, but the product is not rounded again; for a lux reading
of 126.582 the lux channel value is 126.58 and the derived irradiance value
is exactly 126.58 * 0.0079 = 0.999982. -/
theorem irradiance_conversion_after_rounding (dateParseMs : String → ℤ)
    (readings : List LiveData) :
    (solarIrradianceData (transform dateParseMs readings)).length =
      readings.length ∧
    (∀ i (h : i < (solarIrradianceData (transform dateParseMs readings)).length)
       (hr : i < readings.length),
      ((solarIrradianceData (transform dateParseMs readings)).get ⟨i, h⟩).value =
        round2 ((readings.get ⟨i, hr⟩).ambientweatherlightlux) * (79 / 10000)) ∧
    round2 (126582 / 1000 : ℚ) = 12658 / 100 := by
  refine ⟨by simp [solarIrradianceData, transform], ?_, by norm_num [round2, roundHalfAway]⟩
  intro i h hr
  simp [solarIrradianceData, transform, List.get_eq_getElem, List.getElem_map]

/-- Witness for C2's amended theorem at the sample reading. -/
theorem irradiance_conversion_after_rounding_witness :
    (solarIrradianceData (transform (fun _ => 0) [sampleReading])).length = 1 ∧
    ((solarIrradianceData (transform (fun _ => 0) [sampleReading])).get
        ⟨0, by decide⟩).value =
      round2 (([sampleReading].get ⟨0, by decide⟩).ambientweatherlightlux) *
        (79 / 10000) := by
  have h := irradiance_conversion_after_rounding (fun _ => 0) [sampleReading]
  exact ⟨h.1, h.2.1 0 (by decide) (by decide)⟩

/-- A raw record whose timestamp carries no trailing zone marker. -/
def noZoneReading : LiveData where
  timestamp := "2024-11-20T10:00:00"
  temperature_c := 1
  humidity := 2
  pressure := 3
  ambientweatherwindmaxspeed := 4
  wind_speed := 5
  wind_direction := 6
  ambientweathertemp := 7
  ambientweatherhumidity := 8
  ambientweatherrain := 9
  ambientweatheruv := 10
  ambientweatheruvi := 11
  ambientweatherlightlux := 12
  image_url := none

/-- Counterexample to C3: the code removes the final character of the
timestamp unconditionally, so a timestamp with no trailing zone marker is
not parsed unchanged — with string length as the parse function, the point's
time is the length of the truncated string (18), not of the
zone-marker-stripped string (19). -/
theorem timestamp_strip_counterexample :
    (transform (fun str => (str.length : ℤ)) [noZoneReading]).temperature.map
        DataPoint.time = [18] ∧
    (stripTrailingZoneMarker noZoneReading.timestamp).length = 19 ∧
    ((18 : ℤ)) ≠ 19 := by
  refine ⟨?_, by decide, by decide⟩
  simp only [transform, List.map_cons, List.map_nil]
  decide

/-- C3 amended: the time of every produced point is the parse of the
reading's timestamp with its final character removed, whether or not that
character is a zone marker; when the timestamp does end with the zone marker
"Z" this coincides with stripping the trailing zone marker, as the claim
describes, and otherwise the timestamp loses its final character instead of
being parsed unchanged. -/
theorem timestamp_unconditional_strip (dateParseMs : String → ℤ)
    (readings : List LiveData) (m : Metric) (i : ℕ)
    (h : i < (channelOf m (transform dateParseMs readings)).length)
    (hr : i < readings.length) :
    ((channelOf m (transform dateParseMs readings)).get ⟨i, h⟩).time =
      dateParseMs (sliceDropLast (readings.get ⟨i, hr⟩).timestamp) ∧
    ((readings.get ⟨i, hr⟩).timestamp.data.getLast? = some 'Z' →
      ((channelOf m (transform dateParseMs readings)).get ⟨i, h⟩).time =
        dateParseMs (stripTrailingZoneMarker (readings.get ⟨i, hr⟩).timestamp)) := by
  cases m <;>
  · constructor
    · simp [channelOf, transform, List.get_eq_getElem, List.getElem_map]
    · intro hz
      simp only [List.get_eq_getElem] at hz
      simp [channelOf, transform, List.get_eq_getElem, List.getElem_map,
        sliceDropLast, stripTrailingZoneMarker, hz]

/-- Witness for C3's amended theorem at the sample reading, whose timestamp
ends with the zone marker. -/
theorem timestamp_unconditional_strip_witness :
    ((channelOf Metric.temperature (transform (fun str => (str.length : ℤ))
        [sampleReading])).get ⟨0, by decide⟩).time =
      (fun str => (str.length : ℤ))
        (sliceDropLast (([sampleReading].get ⟨0, by decide⟩).timestamp)) ∧
    ((channelOf Metric.temperature (transform (fun str => (str.length : ℤ))
        [sampleReading])).get ⟨0, by decide⟩).time =
      (fun str => (str.length : ℤ))
        (stripTrailingZoneMarker (([sampleReading].get ⟨0, by decide⟩).timestamp)) := by
  have h := timestamp_unconditional_strip (fun str => (str.length : ℤ))
    [sampleReading] Metric.temperature 0 (by decide) (by decide)
  exact ⟨h.1, h.2 (by decide)⟩

/-- The half-away rounding is odd. -/
theorem roundHalfAway_neg (q : ℚ) : roundHalfAway (-q) = -roundHalfAway q := by
  unfold roundHalfAway
  rcases lt_trichotomy q 0 with h | h | h
  · rw [if_neg (by linarith), if_pos h, neg_neg]
  · subst h
    norm_num
  · rw [if_pos (by linarith), if_neg (by linarith), neg_neg]

/-- For nonnegative inputs, the rounded value sits within a half above and
strictly less than a half below the input. -/
theorem roundHalfAway_bounds (q : ℚ) (hq : 0 ≤ q) :
    -(1/2 : ℚ) ≤ q - (roundHalfAway q : ℚ) ∧ q - (roundHalfAway q : ℚ) < 1/2 := by
  unfold roundHalfAway
  rw [if_neg (not_lt.mpr hq)]
  constructor
  · have h := Int.floor_le (q + 1/2)
    push_cast at h ⊢
    linarith
  · have h := Int.lt_floor_add_one (q + 1/2)
    push_cast at h ⊢
    linarith

/-- The rounded value is within a half of the input. -/
theorem roundHalfAway_dist (q : ℚ) : |q - (roundHalfAway q : ℚ)| ≤ 1/2 := by
  rcases le_or_lt 0 q with h | h
  · have hb := roundHalfAway_bounds q h
    rw [abs_le]
    constructor <;> linarith [hb.1, hb.2]
  · have hb := roundHalfAway_bounds (-q) (by linarith)
    rw [roundHalfAway_neg q] at hb
    push_cast at hb
    rw [abs_le]
    constructor <;> linarith [hb.1, hb.2]

/-- The rounded value is a nearest integer to the input. -/
theorem roundHalfAway_nearest (q : ℚ) (n : ℤ) :
    |q - (roundHalfAway q : ℚ)| ≤ |q - (n : ℚ)| := by
  by_cases hn : n = roundHalfAway q
  · subst hn
    exact le_refl _
  · have h1 := roundHalfAway_dist q
    have h2 : (1 : ℚ) ≤ |(roundHalfAway q : ℚ) - (n : ℚ)| := by
      have hz : roundHalfAway q - n ≠ 0 := sub_ne_zero.mpr fun he => hn he.symm
      have := Int.one_le_abs hz
      push_cast at this ⊢
      exact_mod_cast this
    have h4 := abs_sub_le ((roundHalfAway q : ℚ)) q ((n : ℚ))
    have h5 : |(roundHalfAway q : ℚ) - q| = |q - (roundHalfAway q : ℚ)| :=
      abs_sub_comm _ _
    linarith

/-- On ties, nonnegative case: the integer the code picks has the larger
absolute value of the two nearest integers. -/
theorem roundHalfAway_tie_nonneg (q : ℚ) (hq : 0 ≤ q) (n : ℤ)
    (h : |q - (n : ℚ)| = |q - (roundHalfAway q : ℚ)|) :
    |(n : ℚ)| ≤ |(roundHalfAway q : ℚ)| := by
  by_cases hn : n = roundHalfAway q
  · rw [hn]
  · have hb := roundHalfAway_bounds q hq
    have hd := roundHalfAway_dist q
    have h2 : (1 : ℚ) ≤ |(roundHalfAway q : ℚ) - (n : ℚ)| := by
      have hz : roundHalfAway q - n ≠ 0 := sub_ne_zero.mpr fun he => hn he.symm
      have := Int.one_le_abs hz
      exact_mod_cast this
    have h4 := abs_sub_le ((roundHalfAway q : ℚ)) q ((n : ℚ))
    have h5 : |(roundHalfAway q : ℚ) - q| = |q - (roundHalfAway q : ℚ)| :=
      abs_sub_comm _ _
    have heq : |q - (roundHalfAway q : ℚ)| = 1/2 := le_antisymm hd (by linarith)
    have hr2 : q - (roundHalfAway q : ℚ) = -(1/2) := by
      rcases (abs_eq (by norm_num : (0:ℚ) ≤ 1/2)).mp heq with h' | h'
      · linarith [hb.2]
      · exact h'
    rcases (abs_eq (by norm_num : (0:ℚ) ≤ 1/2)).mp (h.trans heq) with h' | h'
    · have hZ : (0 : ℤ) < roundHalfAway q := by
        have h12 : (0 : ℚ) < (roundHalfAway q : ℚ) := by linarith
        exact_mod_cast h12
      have h1r : (1 : ℚ) ≤ (roundHalfAway q : ℚ) := by
        exact_mod_cast (show (1 : ℤ) ≤ roundHalfAway q by omega)
      rw [abs_of_nonneg (by linarith : (0:ℚ) ≤ (n:ℚ)),
        abs_of_nonneg (by linarith : (0:ℚ) ≤ (roundHalfAway q : ℚ))]
      linarith
    · exfalso
      apply hn
      have : (n : ℚ) = (roundHalfAway q : ℚ) := by linarith
      exact_mod_cast this

/-- On ties the code rounds away from zero: any integer equally distant from
the input has absolute value at most that of the rounded value. -/
theorem roundHalfAway_tie (q : ℚ) (n : ℤ)
    (h : |q - (n : ℚ)| = |q - (roundHalfAway q : ℚ)|) :
    |(n : ℚ)| ≤ |(roundHalfAway q : ℚ)| := by
  rcases le_or_lt 0 q with hq | hq
  · exact roundHalfAway_tie_nonneg q hq n h
  · have h' : |(-q) - ((-n : ℤ) : ℚ)| = |(-q) - ((roundHalfAway (-q)) : ℚ)| := by
      rw [roundHalfAway_neg q]
      push_cast
      rw [show -q - -(n:ℚ) = -(q - (n:ℚ)) by ring,
        show -q - -((roundHalfAway q : ℤ) : ℚ) = -(q - ((roundHalfAway q : ℤ) : ℚ)) by ring,
        abs_neg, abs_neg]
      exact h
    have hres := roundHalfAway_tie_nonneg (-q) (by linarith) (-n) h'
    rw [roundHalfAway_neg q] at hres
    push_cast at hres
    rwa [abs_neg, abs_neg] at hres

/-- C8: for every reading and each of the twelve metrics, the produced
point's value is the reading's scalar rounded to exactly two decimal places
with `round2`; and `round2` is indeed rounding to two decimals using
round-half-away-from-zero — at scale 100 it picks a nearest integer, and on
a tie it picks the one of larger absolute value (away from zero). -/
theorem transform_value_rounding (dateParseMs : String → ℤ)
    (readings : List LiveData) (m : Metric) (i : ℕ)
    (h : i < (channelOf m (transform dateParseMs readings)).length)
    (hr : i < readings.length) :
    ((channelOf m (transform dateParseMs readings)).get ⟨i, h⟩).value =
      round2 (scalarOf m (readings.get ⟨i, hr⟩)) ∧
    (∀ q : ℚ, round2 q = (roundHalfAway (q * 100) : ℚ) / 100) ∧
    (∀ q : ℚ, ∀ n : ℤ,
      |q * 100 - (roundHalfAway (q * 100) : ℚ)| ≤ |q * 100 - (n : ℚ)|) ∧
    (∀ q : ℚ, ∀ n : ℤ,
      |q * 100 - (n : ℚ)| = |q * 100 - (roundHalfAway (q * 100) : ℚ)| →
        |(n : ℚ)| ≤ |(roundHalfAway (q * 100) : ℚ)|) := by
  refine ⟨?_, fun q => rfl, fun q n => roundHalfAway_nearest (q * 100) n,
    fun q n hqn => roundHalfAway_tie (q * 100) n hqn⟩
  cases m <;>
    simp [channelOf, transform, scalarOf, List.get_eq_getElem, List.getElem_map]

/-- Witness for C8 at the sample reading's temperature channel. -/
theorem transform_value_rounding_witness :
    ((channelOf Metric.temperature (transform (fun _ => 0) [sampleReading])).get
        ⟨0, by decide⟩).value =
      round2 (scalarOf Metric.temperature ([sampleReading].get ⟨0, by decide⟩)) := by
  exact (transform_value_rounding (fun _ => 0) [sampleReading] Metric.temperature 0
    (by decide) (by decide)).1

/-- C6: the CSV export of a dataset consists of one header line plus one row
per reference-channel (temperature) entry — for a transformed list of n
readings, n + 1 lines; the header fixes the column order as timestamp
followed by the twelve raw metrics, with no solar-irradiance column; every
row has exactly thirteen cells; and a companion channel with no entry at a
row's index yields an absent (empty) cell rather than a failure. -/
theorem export_structure (toIso : ℤ → String) (dateParseMs : String → ℤ)
    (readings : List LiveData) (hd : HistoricalData) :
    (csvLineList toIso hd).length = hd.temperature.length + 1 ∧
    (csvLineList toIso hd).head? = some (String.intercalate "," csvHeaders) ∧
    csvHeaders = ["Timestamp", "Temperature (°C)", "Humidity (%)",
      "Pressure (hPa)", "Wind Max Speed (km/h)", "Wind Speed (km/h)",
      "Wind Direction (°)", "Ambient Temperature (°C)", "Ambient Humidity (%)",
      "Rain (mm)", "UV Index", "UVI", "Light Lux (lx)"] ∧
    (∀ row ∈ exportRows toIso hd, row.length = 13) ∧
    (∀ i (hi : i < (exportDataPoints hd).length), hd.humidity.length ≤ i →
      ((exportDataPoints hd).get ⟨i, hi⟩).humidity = none) ∧
    (csvLineList toIso (transform dateParseMs readings)).length =
      readings.length + 1 := by
  refine ⟨?_, rfl, rfl, ?_, ?_, ?_⟩
  · simp [csvLineList, exportRows, exportDataPoints, List.enum_length]
  · intro row hrow
    rcases List.mem_map.mp hrow with ⟨item, _, rfl⟩
    rfl
  · intro i hi hle
    simp [exportDataPoints, List.get_eq_getElem, List.getElem_map,
      List.getElem_enum, List.getElem?_eq_none hle]
  · simp [csvLineList, exportRows, exportDataPoints, List.enum_length, transform]

/-- A dataset whose humidity channel is missing its entries, exercising the
exporter's tolerance of absent companion cells. -/
def hdMissing : HistoricalData :=
  { transform (fun _ => 0) [sampleReading] with humidity := [] }

/-- Witness for C6: on a concrete dataset with one temperature entry and an
empty humidity channel, the export has two lines, the first row has
thirteen cells, and the humidity cell of row zero is absent. -/
theorem export_structure_witness :
    (csvLineList (fun _ => "") hdMissing).length = hdMissing.temperature.length + 1 ∧
    ((exportRows (fun _ => "") hdMissing).get ⟨0, by decide⟩).length = 13 ∧
    ((exportDataPoints hdMissing).get ⟨0, by decide⟩).humidity = none := by
  have h := export_structure (fun _ => "") (fun _ => 0) [sampleReading] hdMissing
  refine ⟨h.1, ?_, ?_⟩
  · exact h.2.2.2.1 _ (List.get_mem _ _ _)
  · exact h.2.2.2.2.1 0 (by decide) (by decide)
